import Mathlib

/-!
Shallow embedding of the invoice core of the Freelancer invoice generator:
the zod form schemas from the shared schema module, the `MemStorage`
in-memory store, and the Express route handlers for invoices
(create / update / status update / delete / fetch) from `server/routes.ts`.

Monetary quantities are embedded as exact rationals (`ℚ`); the code applies
no rounding anywhere in these paths, so every arithmetic identity it
establishes holds exactly.  JavaScript `Map` objects keyed by `id` are
embedded as lists with `set`/`delete` of the matching key; wall-clock
reads (`new Date()`, `getFullYear()`) are passed in explicitly.
-/

namespace InvoiceApp

/-! ## Schema (`shared/schema.ts`) -/

/-- `InvoiceStatus` enumeration values. -/
def invoiceStatusValues : List String := ["draft", "pending", "paid", "overdue", "cancelled"]

/-- `InvoiceStatus.PENDING`, the status assigned on creation. -/
def statusPending : String := "pending"

/-- One entry of `invoiceFormSchema.lineItems`. -/
structure LineItemForm where
  description : String
  quantity : ℚ
  rate : ℚ
  amount : ℚ
deriving DecidableEq, Repr

/-- The body accepted by `invoiceFormSchema` (POST/PUT `/api/invoices`). -/
structure InvoiceForm where
  clientId : ℕ
  invoiceNumber : String
  issueDate : String
  dueDate : String
  paymentTerms : String
  taxRate : ℚ
  notes : Option String
  lineItems : List LineItemForm
deriving DecidableEq, Repr

/-- The per-item zod constraints: non-empty description,
`quantity ≥ 0.01`, `rate ≥ 0`. -/
def lineItemFormValid (it : LineItemForm) : Bool :=
  decide (1 ≤ it.description.length) &&
  decide ((1 : ℚ)/100 ≤ it.quantity) &&
  decide ((0 : ℚ) ≤ it.rate)

/-- `invoiceFormSchema.parse` succeeds exactly on bodies satisfying the
zod constraints: `taxRate` in `[0,100]`, at least one line item, every
item well-formed. -/
def invoiceFormValid (f : InvoiceForm) : Bool :=
  decide ((0 : ℚ) ≤ f.taxRate) &&
  decide (f.taxRate ≤ 100) &&
  decide (1 ≤ f.lineItems.length) &&
  f.lineItems.all lineItemFormValid

/-! ## Stored entities -/

structure User where
  id : ℕ
  username : String
  password : String
  fullName : String
  email : String
  address : Option String
  phone : Option String
  companyName : Option String
  companyLogo : Option String
deriving DecidableEq, Repr

structure Client where
  id : ℕ
  userId : ℕ
  name : String
  email : Option String
  address : Option String
  phone : Option String
  companyName : Option String
  contactPerson : Option String
  createdAt : ℕ
deriving DecidableEq, Repr

structure Invoice where
  id : ℕ
  userId : ℕ
  clientId : ℕ
  invoiceNumber : String
  status : String
  issueDate : String
  dueDate : String
  paymentTerms : String
  subtotal : ℚ
  taxRate : ℚ
  taxAmount : ℚ
  total : ℚ
  notes : String
  createdAt : ℕ
  updatedAt : ℕ
deriving DecidableEq, Repr

structure LineItem where
  id : ℕ
  invoiceId : ℕ
  description : String
  quantity : ℚ
  rate : ℚ
  amount : ℚ
deriving DecidableEq, Repr

/-- The argument record of `storage.createInvoice` (the handler's
`invoiceData` on creation). -/
structure InsertInvoice where
  userId : ℕ
  clientId : ℕ
  invoiceNumber : String
  status : String
  issueDate : String
  dueDate : String
  paymentTerms : String
  notes : String
  subtotal : ℚ
  taxRate : ℚ
  taxAmount : ℚ
  total : ℚ
deriving DecidableEq, Repr

/-- The argument record of `storage.createLineItem`. -/
structure InsertLineItem where
  invoiceId : ℕ
  description : String
  quantity : ℚ
  rate : ℚ
  amount : ℚ
deriving DecidableEq, Repr

/-- The partial record the PUT handler passes to `storage.updateInvoice`
(no `userId`, `invoiceNumber` or `status` key). -/
structure InvoiceUpdate where
  clientId : ℕ
  issueDate : String
  dueDate : String
  paymentTerms : String
  notes : String
  subtotal : ℚ
  taxRate : ℚ
  taxAmount : ℚ
  total : ℚ
deriving DecidableEq, Repr

/-! ## `MemStorage` -/

structure MemStorage where
  users : List User
  clients : List Client
  invoices : List Invoice
  lineItems : List LineItem
  currentUserId : ℕ
  currentClientId : ℕ
  currentInvoiceId : ℕ
  currentLineItemId : ℕ
  currentInvoiceNumber : ℕ
deriving DecidableEq, Repr

/-- `Map.set` on the invoices map: overwrite the entry with the same key
if present, otherwise append. -/
def setInvoiceEntry (l : List Invoice) (v : Invoice) : List Invoice :=
  if l.any (fun x => x.id == v.id) then
    l.map (fun x => if x.id == v.id then v else x)
  else l ++ [v]

/-- `Map.set` on the line-items map. -/
def setLineItemEntry (l : List LineItem) (v : LineItem) : List LineItem :=
  if l.any (fun x => x.id == v.id) then
    l.map (fun x => if x.id == v.id then v else x)
  else l ++ [v]

def MemStorage.getClient (st : MemStorage) (id : ℕ) : Option Client :=
  st.clients.find? (fun c => c.id == id)

def MemStorage.getInvoice (st : MemStorage) (id : ℕ) : Option Invoice :=
  st.invoices.find? (fun i => i.id == id)

def MemStorage.getLineItemsByInvoiceId (st : MemStorage) (invoiceId : ℕ) : List LineItem :=
  st.lineItems.filter (fun li => li.invoiceId == invoiceId)

def MemStorage.createInvoice (st : MemStorage) (d : InsertInvoice) (now : ℕ) :
    Invoice × MemStorage :=
  let id := st.currentInvoiceId
  let newInvoice : Invoice :=
    { id := id, userId := d.userId, clientId := d.clientId,
      invoiceNumber := d.invoiceNumber, status := d.status,
      issueDate := d.issueDate, dueDate := d.dueDate,
      paymentTerms := d.paymentTerms, subtotal := d.subtotal,
      taxRate := d.taxRate, taxAmount := d.taxAmount, total := d.total,
      notes := d.notes, createdAt := now, updatedAt := now }
  (newInvoice,
   { st with invoices := setInvoiceEntry st.invoices newInvoice,
             currentInvoiceId := id + 1 })

def MemStorage.updateInvoice (st : MemStorage) (id : ℕ) (d : InvoiceUpdate) (now : ℕ) :
    Option Invoice × MemStorage :=
  match st.invoices.find? (fun i => i.id == id) with
  | none => (none, st)
  | some ex =>
      let upd : Invoice :=
        { ex with clientId := d.clientId, issueDate := d.issueDate,
                  dueDate := d.dueDate, paymentTerms := d.paymentTerms,
                  notes := d.notes, subtotal := d.subtotal,
                  taxRate := d.taxRate, taxAmount := d.taxAmount,
                  total := d.total, updatedAt := now }
      (some upd, { st with invoices := setInvoiceEntry st.invoices upd })

def MemStorage.updateInvoiceStatus (st : MemStorage) (id : ℕ) (status : String) (now : ℕ) :
    Option Invoice × MemStorage :=
  match st.invoices.find? (fun i => i.id == id) with
  | none => (none, st)
  | some ex =>
      let upd : Invoice := { ex with status := status, updatedAt := now }
      (some upd, { st with invoices := setInvoiceEntry st.invoices upd })

def MemStorage.deleteLineItemsByInvoiceId (st : MemStorage) (invoiceId : ℕ) : MemStorage :=
  { st with lineItems := st.lineItems.filter (fun li => !(li.invoiceId == invoiceId)) }

def MemStorage.deleteInvoice (st : MemStorage) (id : ℕ) : Bool × MemStorage :=
  let st1 := st.deleteLineItemsByInvoiceId id
  (st1.invoices.any (fun i => i.id == id),
   { st1 with invoices := st1.invoices.filter (fun i => !(i.id == id)) })

def MemStorage.createLineItem (st : MemStorage) (d : InsertLineItem) :
    LineItem × MemStorage :=
  let id := st.currentLineItemId
  let newLineItem : LineItem :=
    { id := id, invoiceId := d.invoiceId, description := d.description,
      quantity := d.quantity, rate := d.rate, amount := d.amount }
  (newLineItem,
   { st with lineItems := setLineItemEntry st.lineItems newLineItem,
             currentLineItemId := id + 1 })

/-! ## Invoice number generator -/

/-- One decimal digit as a character. -/
def digitChar (n : ℕ) : Char := Char.ofNat (48 + n)

/-- Decimal rendering of a natural, as JavaScript `String(n)` produces. -/
def decRepr (n : ℕ) : List Char :=
  if _h : n < 10 then [digitChar n]
  else decRepr (n / 10) ++ [digitChar (n % 10)]
termination_by n
decreasing_by exact Nat.div_lt_self (by omega) (by omega)

/-- `padStart(3, '0')` on a character list. -/
def padCharsStart3 (l : List Char) : List Char :=
  if l.length < 3 then List.replicate (3 - l.length) '0' ++ l else l

/-- The template string `INV-${year}-${String(seq).padStart(3, '0')}`. -/
def invoiceNumberString (year seq : ℕ) : String :=
  String.mk ("INV-".data ++ decRepr year ++ "-".data ++ padCharsStart3 (decRepr seq))

def MemStorage.generateInvoiceNumber (st : MemStorage) (year : ℕ) :
    String × MemStorage :=
  (invoiceNumberString year st.currentInvoiceNumber,
   { st with currentInvoiceNumber := st.currentInvoiceNumber + 1 })

/-! ## Route handlers (`server/routes.ts`) -/

/-- The observable outcome of an invoice route handler: the HTTP status
plus exactly the data the handler serializes into the response body. -/
inductive InvResp where
  /-- 400, zod validation failure or invalid status token. -/
  | badRequest
  /-- 404. -/
  | notFound
  /-- 403; carries no entity data. -/
  | forbidden
  /-- 500. -/
  | serverError
  /-- 201 `{invoice, lineItems}` from POST. -/
  | createdR (inv : Invoice) (items : List LineItem)
  /-- 200 `{invoice, lineItems}` from PUT. -/
  | okUpdate (inv : Invoice) (items : List LineItem)
  /-- 200 invoice from PATCH status. -/
  | okStatus (inv : Invoice)
  /-- 200 `{invoice, client, lineItems}` from GET. -/
  | okGet (inv : Invoice) (client : Option Client) (items : List LineItem)
  /-- 204. -/
  | noContent
deriving DecidableEq, Repr

/-- The subtotal as the POST/PUT handlers compute it:
`lineItems.reduce((sum, item) => sum + Number(item.amount), 0)`. -/
def subtotalOf (items : List LineItemForm) : ℚ :=
  items.foldl (fun sum it => sum + it.amount) 0

/-- The `Promise.all(lineItems.map(item => storage.createLineItem(...)))`
loop shared by the POST and PUT handlers. -/
def createLineItemsFor : MemStorage → ℕ → List LineItemForm → List LineItem × MemStorage
  | st, _, [] => ([], st)
  | st, invId, it :: rest =>
      let r := st.createLineItem
        { invoiceId := invId, description := it.description,
          quantity := it.quantity, rate := it.rate, amount := it.amount }
      let r2 := createLineItemsFor r.2 invId rest
      (r.1 :: r2.1, r2.2)

/-- POST `/api/invoices` for the authenticated `userId`. -/
def createInvoiceHandler (userId : ℕ) (body : InvoiceForm) (now : ℕ)
    (st : MemStorage) : InvResp × MemStorage :=
  if invoiceFormValid body then
    match st.getClient body.clientId with
    | none => (.forbidden, st)
    | some client =>
        if client.userId ≠ userId then (.forbidden, st)
        else
          let subtotal := subtotalOf body.lineItems
          let taxAmount := subtotal * body.taxRate / 100
          let total := subtotal + taxAmount
          let r := st.createInvoice
            { userId := userId, clientId := body.clientId,
              invoiceNumber := body.invoiceNumber, status := statusPending,
              issueDate := body.issueDate, dueDate := body.dueDate,
              paymentTerms := body.paymentTerms,
              notes := body.notes.getD "",
              subtotal := subtotal, taxRate := body.taxRate,
              taxAmount := taxAmount, total := total } now
          let r2 := createLineItemsFor r.2 r.1.id body.lineItems
          (.createdR r.1 r2.1, r2.2)
  else (.badRequest, st)

/-- PUT `/api/invoices/:id` for the authenticated `userId`. -/
def updateInvoiceHandler (userId id : ℕ) (body : InvoiceForm) (now : ℕ)
    (st : MemStorage) : InvResp × MemStorage :=
  if invoiceFormValid body then
    match st.getInvoice id with
    | none => (.notFound, st)
    | some existingInvoice =>
        if existingInvoice.userId ≠ userId then (.forbidden, st)
        else
          match st.getClient body.clientId with
          | none => (.forbidden, st)
          | some client =>
              if client.userId ≠ userId then (.forbidden, st)
              else
                let subtotal := subtotalOf body.lineItems
                let taxAmount := subtotal * body.taxRate / 100
                let total := subtotal + taxAmount
                let r := st.updateInvoice id
                  { clientId := body.clientId, issueDate := body.issueDate,
                    dueDate := body.dueDate, paymentTerms := body.paymentTerms,
                    notes := body.notes.getD "",
                    subtotal := subtotal, taxRate := body.taxRate,
                    taxAmount := taxAmount, total := total } now
                match r.1 with
                | none => (.serverError, r.2)
                | some invoice =>
                    let st2 := r.2.deleteLineItemsByInvoiceId invoice.id
                    let r3 := createLineItemsFor st2 invoice.id body.lineItems
                    (.okUpdate invoice r3.1, r3.2)
  else (.badRequest, st)

/-- PATCH `/api/invoices/:id/status` for the authenticated `userId`.
(The branch where `updateInvoiceStatus` misses is unreachable after the
existence check; it is mapped to `serverError`.) -/
def updateInvoiceStatusHandler (userId id : ℕ) (status : String) (now : ℕ)
    (st : MemStorage) : InvResp × MemStorage :=
  match st.getInvoice id with
  | none => (.notFound, st)
  | some existingInvoice =>
      if existingInvoice.userId ≠ userId then (.forbidden, st)
      else if invoiceStatusValues.contains status then
        let r := st.updateInvoiceStatus id status now
        match r.1 with
        | none => (.serverError, r.2)
        | some invoice => (.okStatus invoice, r.2)
      else (.badRequest, st)

/-- DELETE `/api/invoices/:id` for the authenticated `userId`. -/
def deleteInvoiceHandler (userId id : ℕ) (st : MemStorage) : InvResp × MemStorage :=
  match st.getInvoice id with
  | none => (.notFound, st)
  | some existingInvoice =>
      if existingInvoice.userId ≠ userId then (.forbidden, st)
      else
        let r := st.deleteInvoice id
        (.noContent, r.2)

/-- GET `/api/invoices/:id` for the authenticated `userId`. -/
def getInvoiceHandler (userId id : ℕ) (st : MemStorage) : InvResp × MemStorage :=
  match st.getInvoice id with
  | none => (.notFound, st)
  | some invoice =>
      if invoice.userId ≠ userId then (.forbidden, st)
      else
        (.okGet invoice (st.getClient invoice.clientId)
          (st.getLineItemsByInvoiceId invoice.id), st)

/-! ## Derived predicates, spec-side reference definitions, generator runs -/

/-- The monetary invariant of §3: every stored invoice satisfies
`total = subtotal + taxAmount`. -/
def totalsOk (st : MemStorage) : Prop :=
  ∀ inv ∈ st.invoices, inv.total = inv.subtotal + inv.taxAmount

/-- Reachability invariant of `MemStorage`: every stored line item's id is
below the id counter.  It holds for the freshly constructed store and is
preserved by every operation. -/
def linesFresh (st : MemStorage) : Prop :=
  ∀ li ∈ st.lineItems, li.id < st.currentLineItemId

/-- The line items `createLineItemsFor` constructs when the id counter
starts at `startId`. -/
def mkLineItems (startId invId : ℕ) : List LineItemForm → List LineItem
  | [] => []
  | it :: rest =>
      { id := startId, invoiceId := invId, description := it.description,
        quantity := it.quantity, rate := it.rate, amount := it.amount }
        :: mkLineItems (startId + 1) invId rest

/-- Generator state after `i` calls to `generateInvoiceNumber`. -/
def genState (st : MemStorage) (year : ℕ) : ℕ → MemStorage
  | 0 => st
  | i + 1 => ((genState st year i).generateInvoiceNumber year).2

/-- Output of the `i`-th call (0-based) in a run of the generator. -/
def genOutput (st : MemStorage) (year : ℕ) (i : ℕ) : String :=
  ((genState st year i).generateInvoiceNumber year).1

/-- Decimal decoding of a digit string; a left inverse of
`padCharsStart3 ∘ decRepr` used to prove generated numbers distinct. -/
def decodeDigits (l : List Char) : ℕ :=
  l.foldl (fun acc c => 10 * acc + (c.toNat - 48)) 0

/-- Spec-side definition (§4.1): standard half-up rounding to exactly two
decimal places, `round(q, 2) = ⌊100q + 1/2⌋ / 100`. -/
def specRound2 (q : ℚ) : ℚ := (⌊q * 100 + 1/2⌋ : ℤ) / 100

/-- Spec-side definition (§4.3): `subtotal = round(sum(item.amount), 2)`. -/
def specSubtotal (items : List LineItemForm) : ℚ :=
  specRound2 ((items.map (fun it => it.amount)).sum)

/-- Spec-side definition (§4.3):
`taxAmount = round(subtotal * taxRatePercent / 100, 2)`. -/
def specTaxAmount (items : List LineItemForm) (taxRatePercent : ℚ) : ℚ :=
  specRound2 (specSubtotal items * taxRatePercent / 100)

/-! ## Concrete fixtures (used by witnesses and counterexamples) -/

def demoClient : Client :=
  { id := 1, userId := 1, name := "Acme Corp", email := none, address := none,
    phone := none, companyName := none, contactPerson := none, createdAt := 0 }

/-- A store holding one client of user 1 and nothing else. -/
def demoState : MemStorage :=
  { users := [], clients := [demoClient], invoices := [], lineItems := [],
    currentUserId := 2, currentClientId := 2, currentInvoiceId := 1,
    currentLineItemId := 1, currentInvoiceNumber := 1 }

/-- A well-formed invoice form: one line item of amount `0.15`, tax rate `5`. -/
def demoBody : InvoiceForm :=
  { clientId := 1, invoiceNumber := "INV-2023-001", issueDate := "2023-03-14",
    dueDate := "2023-04-14", paymentTerms := "net_30", taxRate := 5,
    notes := none, lineItems := [⟨"Design", 1, 3/20, 3/20⟩] }

def demoInvoice : Invoice :=
  { id := 1, userId := 1, clientId := 1, invoiceNumber := "INV-2023-001",
    status := "pending", issueDate := "2023-03-14", dueDate := "2023-04-14",
    paymentTerms := "net_30", subtotal := 3/20, taxRate := 5,
    taxAmount := 3/400, total := 63/400, notes := "", createdAt := 0,
    updatedAt := 0 }

def demoLineItem : LineItem :=
  { id := 1, invoiceId := 1, description := "Design", quantity := 1,
    rate := 3/20, amount := 3/20 }

/-- A store holding `demoInvoice` (owned by user 1) with its line item. -/
def demoState2 : MemStorage :=
  { users := [], clients := [demoClient], invoices := [demoInvoice],
    lineItems := [demoLineItem], currentUserId := 2, currentClientId := 2,
    currentInvoiceId := 2, currentLineItemId := 2, currentInvoiceNumber := 2 }

/-- A second well-formed form replacing the line items wholly: one item
`("Dev", qty 2, rate 100, amount 200)`. -/
def demoBody2 : InvoiceForm :=
  { demoBody with lineItems := [⟨"Dev", 2, 100, 200⟩] }

/-- The invoice `demoInvoice` after a PUT with `demoBody2` at time 7. -/
def demoUpdInvoice : Invoice :=
  { demoInvoice with subtotal := 200, taxAmount := 10, total := 210,
                     updatedAt := 7 }

/-- The single line item created by that PUT. -/
def demoUpdItem : LineItem :=
  { id := 2, invoiceId := 1, description := "Dev", quantity := 2,
    rate := 100, amount := 200 }

/-- The store after that PUT. -/
def demoUpdState : MemStorage :=
  { demoState2 with invoices := [demoUpdInvoice],
                    lineItems := [demoUpdItem], currentLineItemId := 3 }

/-! ## C4 — create with empty line items -/

/-- C4: a create-invoice request whose `lineItems` array is empty fails the
zod schema, the handler answers 400, and the store is returned unchanged —
no Invoice row and no LineItem row is persisted. -/
theorem C4_create_empty_lineItems (userId : ℕ) (body : InvoiceForm) (now : ℕ)
    (st : MemStorage) (hempty : body.lineItems = []) :
    createInvoiceHandler userId body now st = (.badRequest, st) := by
  have hval : invoiceFormValid body = false := by
    simp [invoiceFormValid, hempty]
  simp [createInvoiceHandler, hval]

theorem C4_witness :
    createInvoiceHandler 1 { demoBody with lineItems := [] } 0 demoState
      = (.badRequest, demoState) :=
  C4_create_empty_lineItems 1 { demoBody with lineItems := [] } 0 demoState rfl

/-! ## C3 — status update with an unrecognized status token -/

/-- C3: for an existing invoice owned by the requesting user and a status
string outside `{draft, pending, paid, overdue, cancelled}`, the
status-update handler answers 400 and the store (hence the invoice's
status and every other stored field) is unchanged. -/
theorem C3_invalid_status (userId id : ℕ) (status : String) (now : ℕ)
    (st : MemStorage) (inv : Invoice)
    (hfind : st.getInvoice id = some inv) (hown : inv.userId = userId)
    (hstat : invoiceStatusValues.contains status = false) :
    updateInvoiceStatusHandler userId id status now st = (.badRequest, st) := by
  have hstat' : status ∉ invoiceStatusValues := by
    simpa using hstat
  simp [updateInvoiceStatusHandler, hfind, hown, hstat']

theorem C3_witness :
    updateInvoiceStatusHandler 1 1 "bogus" 7 demoState2 = (.badRequest, demoState2) :=
  C3_invalid_status 1 1 "bogus" 7 demoState2 demoInvoice rfl rfl rfl

/-! ## C10 — update validates the body before the invoice lookup -/

/-- C10: the update handler parses the body first: on a body failing the
form schema it answers 400 with the store untouched — for every store,
including ones where the target id does not exist (the result does not
depend on the store at all) — and a 404 outcome is only reachable when
the body passed validation. -/
theorem C10_update_validates_before_lookup (userId id : ℕ) (body : InvoiceForm)
    (now : ℕ) (st : MemStorage) :
    (invoiceFormValid body = false →
      updateInvoiceHandler userId id body now st = (.badRequest, st))
    ∧ ((updateInvoiceHandler userId id body now st).1 = .notFound →
      invoiceFormValid body = true) := by
  constructor
  · intro h
    simp [updateInvoiceHandler, h]
  · intro h
    by_cases hv : invoiceFormValid body
    · exact hv
    · rw [Bool.not_eq_true] at hv
      simp [updateInvoiceHandler, hv] at h

theorem C10_witness :
    updateInvoiceHandler 1 99 { demoBody with lineItems := [] } 0 demoState
      = (.badRequest, demoState) :=
  (C10_update_validates_before_lookup 1 99 { demoBody with lineItems := [] }
    0 demoState).1 (by decide)

/-! ## C9 — ownership check precedes any read-back or mutation -/

/-- C9: on an invoice owned by a different user, the fetch, update,
status-update and delete handlers each answer 403 — a response constructor
carrying no invoice or line-item data — and return the store unchanged.
(For the update handler the body must pass validation, which the code
checks first; an invalid body yields 400 instead.) -/
theorem C9_foreign_invoice_forbidden (userId id : ℕ) (st : MemStorage)
    (inv : Invoice) (body : InvoiceForm) (status : String) (now : ℕ)
    (hfind : st.getInvoice id = some inv) (hown : inv.userId ≠ userId) :
    getInvoiceHandler userId id st = (.forbidden, st)
    ∧ (invoiceFormValid body = true →
        updateInvoiceHandler userId id body now st = (.forbidden, st))
    ∧ updateInvoiceStatusHandler userId id status now st = (.forbidden, st)
    ∧ deleteInvoiceHandler userId id st = (.forbidden, st) := by
  refine ⟨?_, ?_, ?_, ?_⟩
  · simp [getInvoiceHandler, hfind, hown]
  · intro hv
    simp [updateInvoiceHandler, hv, hfind, hown]
  · simp [updateInvoiceStatusHandler, hfind, hown]
  · simp [deleteInvoiceHandler, hfind, hown]

theorem C9_witness :
    getInvoiceHandler 2 1 demoState2 = (.forbidden, demoState2) :=
  (C9_foreign_invoice_forbidden 2 1 demoState2 demoInvoice demoBody "paid" 0
    rfl (by decide)).1

/-! ## Helper lemmas about the storage operations -/

theorem mem_setInvoiceEntry {l : List Invoice} {v inv : Invoice}
    (h : inv ∈ setInvoiceEntry l v) : inv ∈ l ∨ inv = v := by
  unfold setInvoiceEntry at h
  split at h
  · rcases List.mem_map.mp h with ⟨x, hx, hxe⟩
    by_cases hid : (x.id == v.id) = true
    · right; rw [if_pos hid] at hxe; exact hxe.symm
    · left; rw [if_neg hid] at hxe; exact hxe ▸ hx
  · rcases List.mem_append.mp h with h1 | h1
    · exact .inl h1
    · right; simpa using h1

theorem createLineItemsFor_invoices (forms : List LineItemForm) :
    ∀ (st : MemStorage) (invId : ℕ),
      (createLineItemsFor st invId forms).2.invoices = st.invoices := by
  induction forms with
  | nil => intro st invId; rfl
  | cons it rest ih =>
      intro st invId
      simp only [createLineItemsFor]
      rw [ih]; rfl

theorem totalsOk_createInvoice (st : MemStorage) (d : InsertInvoice) (now : ℕ)
    (h : totalsOk st) (hd : d.total = d.subtotal + d.taxAmount) :
    totalsOk (st.createInvoice d now).2 := by
  intro inv hmem
  simp only [MemStorage.createInvoice] at hmem
  rcases mem_setInvoiceEntry hmem with h1 | h1
  · exact h inv h1
  · subst h1; exact hd

theorem totalsOk_updateInvoice (st : MemStorage) (id : ℕ) (d : InvoiceUpdate)
    (now : ℕ) (h : totalsOk st) (hd : d.total = d.subtotal + d.taxAmount) :
    totalsOk (st.updateInvoice id d now).2 := by
  unfold MemStorage.updateInvoice
  split
  · exact h
  · intro inv hmem
    simp only at hmem
    rcases mem_setInvoiceEntry hmem with h1 | h1
    · exact h inv h1
    · subst h1; exact hd

theorem totalsOk_updateInvoiceStatus (st : MemStorage) (id : ℕ)
    (status : String) (now : ℕ) (h : totalsOk st) :
    totalsOk (st.updateInvoiceStatus id status now).2 := by
  unfold MemStorage.updateInvoiceStatus
  split
  · exact h
  · next ex hfind =>
      intro inv hmem
      simp only at hmem
      rcases mem_setInvoiceEntry hmem with h1 | h1
      · exact h inv h1
      · subst h1
        exact h ex (List.mem_of_find?_eq_some hfind)

theorem totalsOk_createLineItemsFor (st : MemStorage) (invId : ℕ)
    (forms : List LineItemForm) (h : totalsOk st) :
    totalsOk (createLineItemsFor st invId forms).2 := by
  intro inv hmem
  rw [createLineItemsFor_invoices] at hmem
  exact h inv hmem

theorem totalsOk_deleteLineItems (st : MemStorage) (invoiceId : ℕ)
    (h : totalsOk st) : totalsOk (st.deleteLineItemsByInvoiceId invoiceId) := by
  intro inv hmem
  exact h inv hmem

/-! ## C2 — the `total = subtotal + taxAmount` invariant -/

/-- C2: the invariant `total = subtotal + taxAmount` on every stored
invoice is preserved by each write operation — create, update, status
update — whatever branch the handler takes (rows written by the handlers
satisfy it by construction, and no other row is touched). -/
theorem C2_total_invariant (userId id : ℕ) (body : InvoiceForm)
    (status : String) (now : ℕ) (st : MemStorage) (h : totalsOk st) :
    totalsOk (createInvoiceHandler userId body now st).2
    ∧ totalsOk (updateInvoiceHandler userId id body now st).2
    ∧ totalsOk (updateInvoiceStatusHandler userId id status now st).2 := by
  refine ⟨?_, ?_, ?_⟩
  · simp only [createInvoiceHandler]
    split
    · split
      · exact h
      · split
        · exact h
        · exact totalsOk_createLineItemsFor _ _ _
            (totalsOk_createInvoice _ _ _ h rfl)
    · exact h
  · simp only [updateInvoiceHandler]
    split
    · split
      · exact h
      · split
        · exact h
        · split
          · exact h
          · split
            · exact h
            · split
              · exact totalsOk_updateInvoice _ _ _ _ h rfl
              · exact totalsOk_createLineItemsFor _ _ _
                  (totalsOk_deleteLineItems _ _
                    (totalsOk_updateInvoice _ _ _ _ h rfl))
    · exact h
  · simp only [updateInvoiceStatusHandler]
    split
    · exact h
    · split
      · exact h
      · split
        · split
          · exact totalsOk_updateInvoiceStatus _ _ _ _ h
          · exact totalsOk_updateInvoiceStatus _ _ _ _ h
        · exact h

theorem C2_witness :
    totalsOk (createInvoiceHandler 1 demoBody 0 demoState).2 :=
  (C2_total_invariant 1 0 demoBody "paid" 0 demoState
    (by intro inv hmem; simp [demoState] at hmem)).1

/-! ## C8 — status transition frame -/

theorem find?_map_overwrite (v : Invoice) (l : List Invoice) (a : Invoice)
    (h : l.find? (fun x => x.id == v.id) = some a) :
    (l.map (fun x => if x.id == v.id then v else x)).find?
      (fun x => x.id == v.id) = some v := by
  induction l with
  | nil => simp at h
  | cons x xs ih =>
      cases hx : (x.id == v.id) with
      | true =>
          have hx' : x.id = v.id := by simpa using hx
          simp [List.find?_cons, hx']
      | false =>
          simp only [List.find?_cons, hx] at h
          simp only [List.map_cons, hx, Bool.false_eq_true, if_false,
            List.find?_cons]
          exact ih h

theorem find?_setInvoiceEntry (l : List Invoice) (v a : Invoice)
    (h : l.find? (fun x => x.id == v.id) = some a) :
    (setInvoiceEntry l v).find? (fun x => x.id == v.id) = some v := by
  have hmem : a ∈ l := List.mem_of_find?_eq_some h
  have hpred := List.find?_some h
  have hany : l.any (fun x => x.id == v.id) = true := by
    rw [List.any_eq_true]
    exact ⟨a, hmem, hpred⟩
  unfold setInvoiceEntry
  rw [if_pos hany]
  exact find?_map_overwrite v l a h

/-- C8: a successful status transition on an owned invoice replaces its
status by the requested token and its `updatedAt` by the current time,
leaves every other field — in particular `subtotal`, `taxAmount`,
`total` — unchanged (the record update touches only those two fields),
touches no other row, and the stored invoice is the returned one. -/
theorem C8_status_frame (userId id : ℕ) (status : String) (now : ℕ)
    (st : MemStorage) (inv : Invoice)
    (hfind : st.getInvoice id = some inv) (hown : inv.userId = userId)
    (hstat : invoiceStatusValues.contains status = true) :
    updateInvoiceStatusHandler userId id status now st =
      (.okStatus { inv with status := status, updatedAt := now },
       { st with invoices := setInvoiceEntry st.invoices
                   { inv with status := status, updatedAt := now } })
    ∧ MemStorage.getInvoice
        { st with invoices := setInvoiceEntry st.invoices
                    { inv with status := status, updatedAt := now } } id
        = some { inv with status := status, updatedAt := now } := by
  have hfind' : st.invoices.find? (fun x => x.id == id) = some inv := hfind
  have hid : inv.id = id := by
    have := List.find?_some hfind'
    simpa using this
  constructor
  · have hstat' : status ∈ invoiceStatusValues := by simpa using hstat
    simp only [updateInvoiceStatusHandler, hfind]
    simp [hown, hstat', MemStorage.updateInvoiceStatus, hfind']
  · show (setInvoiceEntry st.invoices _).find? (fun x => x.id == id) = _
    subst hid
    exact find?_setInvoiceEntry st.invoices
      { inv with status := status, updatedAt := now } inv hfind'

theorem C8_witness :
    (updateInvoiceStatusHandler 1 1 "paid" 7 demoState2).1
      = .okStatus { demoInvoice with status := "paid", updatedAt := 7 } := by
  rw [(C8_status_frame 1 1 "paid" 7 demoState2 demoInvoice rfl rfl rfl).1]

/-! ## C7 — deleting an invoice removes its line items and the row -/

/-- C7: a successful delete of an owned invoice leaves no line item with
that `invoiceId` in storage — fetching the invoice's line items afterwards
returns the empty collection — and the invoice row itself is gone. -/
theorem C7_delete_cascades (userId id : ℕ) (st : MemStorage) (inv : Invoice)
    (hfind : st.getInvoice id = some inv) (hown : inv.userId = userId) :
    deleteInvoiceHandler userId id st = (.noContent, (st.deleteInvoice id).2)
    ∧ (st.deleteInvoice id).2.getLineItemsByInvoiceId id = []
    ∧ (st.deleteInvoice id).2.getInvoice id = none := by
  refine ⟨?_, ?_, ?_⟩
  · simp [deleteInvoiceHandler, hfind, hown]
  · show (st.lineItems.filter _).filter _ = []
    rw [List.filter_filter, List.filter_eq_nil_iff]
    intro a _ha
    cases hb : (a.invoiceId == id) <;> simp [hb]
  · show List.find? _ (List.filter _ _) = none
    rw [List.find?_eq_none]
    intro x hx
    have hpred := (List.mem_filter.mp hx).2
    cases hb : (x.id == id)
    · simp [hb]
    · rw [hb] at hpred; simp at hpred
  -- (the filtered predicate `!(x.id == id)` contradicts `x.id == id`)

theorem C7_witness :
    (demoState2.deleteInvoice 1).2.getLineItemsByInvoiceId 1 = []
    ∧ (demoState2.deleteInvoice 1).2.getInvoice 1 = none :=
  ⟨(C7_delete_cascades 1 1 demoState2 demoInvoice rfl rfl).2.1,
   (C7_delete_cascades 1 1 demoState2 demoInvoice rfl rfl).2.2⟩

/-! ## C5 — the invoice number generator -/

theorem genState_counter (st : MemStorage) (year : ℕ) :
    ∀ i, (genState st year i).currentInvoiceNumber = st.currentInvoiceNumber + i := by
  intro i
  induction i with
  | zero => rfl
  | succ n ih =>
      show ((genState st year n).generateInvoiceNumber year).2.currentInvoiceNumber = _
      simp only [MemStorage.generateInvoiceNumber]
      rw [ih]
      omega

theorem genOutput_eq (st : MemStorage) (year i : ℕ) :
    genOutput st year i = invoiceNumberString year (st.currentInvoiceNumber + i) := by
  unfold genOutput MemStorage.generateInvoiceNumber
  rw [genState_counter]

theorem digitChar_toNat (n : ℕ) (h : n < 10) : (digitChar n).toNat = 48 + n := by
  interval_cases n <;> decide

theorem decodeDigits_append_digit (l : List Char) (c : Char) :
    decodeDigits (l ++ [c]) = 10 * decodeDigits l + (c.toNat - 48) := by
  unfold decodeDigits
  rw [List.foldl_append]
  rfl

theorem decodeDigits_decRepr (n : ℕ) : decodeDigits (decRepr n) = n := by
  induction n using Nat.strong_induction_on with
  | _ n ih =>
      by_cases h : n < 10
      · rw [decRepr, dif_pos h]
        show decodeDigits ([] ++ [digitChar n]) = n
        rw [decodeDigits_append_digit, digitChar_toNat n h]
        simp [decodeDigits]
      · rw [decRepr, dif_neg h]
        rw [decodeDigits_append_digit, ih (n / 10) (by omega),
          digitChar_toNat (n % 10) (by omega)]
        omega

theorem decodeDigits_replicate_zero (k : ℕ) (l : List Char) :
    decodeDigits (List.replicate k '0' ++ l) = decodeDigits l := by
  induction k with
  | zero => rfl
  | succ m ih =>
      have h0 : (fun acc c => 10 * acc + (c.toNat - 48)) 0 '0' = 0 := by decide
      simpa [decodeDigits, List.replicate_succ, List.foldl_cons, h0]
        using ih

theorem decodeDigits_pad (l : List Char) :
    decodeDigits (padCharsStart3 l) = decodeDigits l := by
  unfold padCharsStart3
  split
  · exact decodeDigits_replicate_zero _ _
  · rfl

theorem invoiceNumberString_inj (year n m : ℕ)
    (h : invoiceNumberString year n = invoiceNumberString year m) : n = m := by
  unfold invoiceNumberString at h
  injection h with hdata
  have hpad : padCharsStart3 (decRepr n) = padCharsStart3 (decRepr m) :=
    List.append_cancel_left hdata
  have := congrArg decodeDigits hpad
  rwa [decodeDigits_pad, decodeDigits_pad, decodeDigits_decRepr,
    decodeDigits_decRepr] at this

theorem three_le_pad_length (l : List Char) : 3 ≤ (padCharsStart3 l).length := by
  unfold padCharsStart3
  split
  · simp; omega
  · omega

/-- C5: the `i`-th call of the generator returns exactly the template
string `INV-<year>-<seq>` for the counter value at that call, with the
sequence part padded to at least 3 characters; counters of later calls
are strictly greater, and any two distinct calls in a run return
different strings. -/
theorem C5_invoice_number_generator (st : MemStorage) (year i j : ℕ) :
    genOutput st year i = invoiceNumberString year (st.currentInvoiceNumber + i)
    ∧ 3 ≤ (padCharsStart3 (decRepr (st.currentInvoiceNumber + i))).length
    ∧ (i < j → st.currentInvoiceNumber + i < st.currentInvoiceNumber + j)
    ∧ (i ≠ j → genOutput st year i ≠ genOutput st year j) := by
  refine ⟨genOutput_eq st year i, three_le_pad_length _, by omega, ?_⟩
  intro hne heq
  rw [genOutput_eq, genOutput_eq] at heq
  exact hne (Nat.add_left_cancel (invoiceNumberString_inj year _ _ heq))

theorem C5_witness :
    genOutput demoState 2023 0 ≠ genOutput demoState 2023 1 :=
  (C5_invoice_number_generator demoState 2023 0 1).2.2.2 (by omega)

/-! ## C6 — update fully replaces the line-item set -/

theorem mkLineItems_length (invId : ℕ) (forms : List LineItemForm) :
    ∀ s, (mkLineItems s invId forms).length = forms.length := by
  induction forms with
  | nil => intro s; rfl
  | cons it rest ih => intro s; simp [mkLineItems, ih]

theorem mkLineItems_invoiceId (invId : ℕ) (forms : List LineItemForm) :
    ∀ s, ∀ li ∈ mkLineItems s invId forms, li.invoiceId = invId := by
  induction forms with
  | nil => intro s li h; simp [mkLineItems] at h
  | cons it rest ih =>
      intro s li h
      rcases List.mem_cons.mp h with h1 | h1
      · subst h1; rfl
      · exact ih (s + 1) li h1

theorem mkLineItems_id_ge (invId : ℕ) (forms : List LineItemForm) :
    ∀ s, ∀ li ∈ mkLineItems s invId forms, s ≤ li.id := by
  induction forms with
  | nil => intro s li h; simp [mkLineItems] at h
  | cons it rest ih =>
      intro s li h
      rcases List.mem_cons.mp h with h1 | h1
      · subst h1; exact Nat.le_refl s
      · exact Nat.le_of_succ_le (ih (s + 1) li h1)

theorem mkLineItems_content (invId : ℕ) (forms : List LineItemForm) :
    ∀ s, (mkLineItems s invId forms).map
        (fun li => (li.description, li.quantity, li.rate, li.amount))
      = forms.map (fun f => (f.description, f.quantity, f.rate, f.amount)) := by
  induction forms with
  | nil => intro s; rfl
  | cons it rest ih => intro s; simp [mkLineItems, ih]

theorem createLineItemsFor_spec (forms : List LineItemForm) :
    ∀ (st : MemStorage) (invId : ℕ), linesFresh st →
      createLineItemsFor st invId forms =
        (mkLineItems st.currentLineItemId invId forms,
         { st with
             lineItems :=
               st.lineItems ++ mkLineItems st.currentLineItemId invId forms,
             currentLineItemId := st.currentLineItemId + forms.length }) := by
  induction forms with
  | nil =>
      intro st invId _h
      simp [createLineItemsFor, mkLineItems]
  | cons it rest ih =>
      intro st invId hfresh
      have hany : (st.lineItems.any (fun x => x.id == st.currentLineItemId))
          = false := by
        rw [List.any_eq_false]
        intro x hx
        have := hfresh x hx
        simp
        omega
      have step : createLineItemsFor st invId (it :: rest)
          = (let r2 := createLineItemsFor
              { st with
                  lineItems := st.lineItems ++
                    [{ id := st.currentLineItemId, invoiceId := invId,
                       description := it.description, quantity := it.quantity,
                       rate := it.rate, amount := it.amount }],
                  currentLineItemId := st.currentLineItemId + 1 }
              invId rest
             ({ id := st.currentLineItemId, invoiceId := invId,
                description := it.description, quantity := it.quantity,
                rate := it.rate, amount := it.amount } :: r2.1, r2.2)) := by
        simp only [createLineItemsFor, MemStorage.createLineItem,
          setLineItemEntry, hany, Bool.false_eq_true, if_false]
      rw [step]
      have hfresh1 : linesFresh
          { st with
              lineItems := st.lineItems ++
                [{ id := st.currentLineItemId, invoiceId := invId,
                   description := it.description, quantity := it.quantity,
                   rate := it.rate, amount := it.amount }],
              currentLineItemId := st.currentLineItemId + 1 } := by
        intro li hmem
        rcases List.mem_append.mp hmem with h1 | h1
        · have := hfresh li h1
          show li.id < st.currentLineItemId + 1
          omega
        · rw [List.mem_singleton] at h1
          subst h1
          show st.currentLineItemId < st.currentLineItemId + 1
          omega
      rw [ih _ invId hfresh1]
      simp only [mkLineItems, Prod.mk.injEq, MemStorage.mk.injEq,
        List.append_assoc, List.cons_append, List.nil_append,
        List.length_cons, true_and, and_true]
      omega

theorem updateInvoice_frame (st : MemStorage) (id : ℕ) (d : InvoiceUpdate)
    (now : ℕ) :
    (st.updateInvoice id d now).2.lineItems = st.lineItems
    ∧ (st.updateInvoice id d now).2.currentLineItemId = st.currentLineItemId := by
  unfold MemStorage.updateInvoice
  split
  · exact ⟨rfl, rfl⟩
  · exact ⟨rfl, rfl⟩

theorem updateInvoice_some_id (st : MemStorage) (id : ℕ) (d : InvoiceUpdate)
    (now : ℕ) (inv : Invoice)
    (h : (st.updateInvoice id d now).1 = some inv) : inv.id = id := by
  unfold MemStorage.updateInvoice at h
  split at h
  · simp at h
  · next ex hfind =>
      simp only [Option.some.injEq] at h
      subst h
      show ex.id = id
      have := List.find?_some hfind
      simpa using this

theorem createLineItemsFor_replaces (st2 : MemStorage) (invId : ℕ)
    (forms : List LineItemForm) (hfresh2 : linesFresh st2)
    (hnone : ∀ li ∈ st2.lineItems, (li.invoiceId == invId) = false) :
    (createLineItemsFor st2 invId forms).2.getLineItemsByInvoiceId invId
      = (createLineItemsFor st2 invId forms).1
    ∧ (createLineItemsFor st2 invId forms).1.length = forms.length
    ∧ (createLineItemsFor st2 invId forms).1.map
        (fun li => (li.description, li.quantity, li.rate, li.amount))
      = forms.map (fun f => (f.description, f.quantity, f.rate, f.amount))
    ∧ ∀ li : LineItem, li.id < st2.currentLineItemId →
        li ∉ (createLineItemsFor st2 invId forms).2.lineItems
          ∨ li ∈ st2.lineItems := by
  rw [createLineItemsFor_spec forms st2 invId hfresh2]
  refine ⟨?_, mkLineItems_length invId forms _,
    mkLineItems_content invId forms _, ?_⟩
  · show (st2.lineItems ++ mkLineItems st2.currentLineItemId invId forms).filter _
      = mkLineItems st2.currentLineItemId invId forms
    rw [List.filter_append]
    have h1 : st2.lineItems.filter (fun li => li.invoiceId == invId) = [] := by
      rw [List.filter_eq_nil_iff]
      intro a ha
      simp [hnone a ha]
    have h2 : (mkLineItems st2.currentLineItemId invId forms).filter
        (fun li => li.invoiceId == invId)
        = mkLineItems st2.currentLineItemId invId forms := by
      rw [List.filter_eq_self]
      intro a ha
      have := mkLineItems_invoiceId invId forms st2.currentLineItemId a ha
      simp [this]
    rw [h1, h2, List.nil_append]
  · intro li hli
    by_cases hmem : li ∈ st2.lineItems
    · exact Or.inr hmem
    · left
      intro hmem'
      have hmem'' : li ∈ st2.lineItems
          ++ mkLineItems st2.currentLineItemId invId forms := hmem'
      rcases List.mem_append.mp hmem'' with h1 | h1
      · exact hmem h1
      · have := mkLineItems_id_ge invId forms st2.currentLineItemId li h1
        omega

theorem update_success_replacement (st : MemStorage) (id : ℕ)
    (d : InvoiceUpdate) (now : ℕ) (invoice : Invoice)
    (forms : List LineItemForm) (hfresh : linesFresh st) :
    (createLineItemsFor
        ((st.updateInvoice id d now).2.deleteLineItemsByInvoiceId invoice.id)
        invoice.id forms).2.getLineItemsByInvoiceId invoice.id
      = (createLineItemsFor
        ((st.updateInvoice id d now).2.deleteLineItemsByInvoiceId invoice.id)
        invoice.id forms).1
    ∧ (createLineItemsFor
        ((st.updateInvoice id d now).2.deleteLineItemsByInvoiceId invoice.id)
        invoice.id forms).1.length = forms.length
    ∧ (createLineItemsFor
        ((st.updateInvoice id d now).2.deleteLineItemsByInvoiceId invoice.id)
        invoice.id forms).1.map
          (fun li => (li.description, li.quantity, li.rate, li.amount))
      = forms.map (fun f => (f.description, f.quantity, f.rate, f.amount))
    ∧ ∀ li ∈ st.lineItems, li.invoiceId = invoice.id →
        li ∉ (createLineItemsFor
          ((st.updateInvoice id d now).2.deleteLineItemsByInvoiceId invoice.id)
          invoice.id forms).2.lineItems := by
  have hframe := updateInvoice_frame st id d now
  have hlis : ((st.updateInvoice id d now).2.deleteLineItemsByInvoiceId
      invoice.id).lineItems
      = st.lineItems.filter (fun li => !(li.invoiceId == invoice.id)) := by
    show (st.updateInvoice id d now).2.lineItems.filter _ = _
    rw [hframe.1]
  have hcur : ((st.updateInvoice id d now).2.deleteLineItemsByInvoiceId
      invoice.id).currentLineItemId = st.currentLineItemId := hframe.2
  have hfresh2 : linesFresh
      ((st.updateInvoice id d now).2.deleteLineItemsByInvoiceId invoice.id) := by
    intro li hmem
    rw [hlis] at hmem
    have h1 := hfresh li (List.mem_filter.mp hmem).1
    rw [hcur]
    exact h1
  have hnone : ∀ li ∈ ((st.updateInvoice id d now).2.deleteLineItemsByInvoiceId
      invoice.id).lineItems, (li.invoiceId == invoice.id) = false := by
    intro li hmem
    rw [hlis] at hmem
    have h2 := (List.mem_filter.mp hmem).2
    cases hb : (li.invoiceId == invoice.id)
    · rfl
    · rw [hb] at h2; simp at h2
  have main := createLineItemsFor_replaces _ invoice.id forms hfresh2 hnone
  refine ⟨main.1, main.2.1, main.2.2.1, ?_⟩
  intro li hmem hinv hmem'
  rcases main.2.2.2 li (by rw [hcur]; exact hfresh li hmem) with hnot | hin2
  · exact hnot hmem'
  · have := hnone li hin2
    rw [hinv] at this
    simp at this

/-- C6: after a successful update of an owned invoice with a new list of
line items, the line items retrievable for that invoice are exactly the
returned new list — one created row per submitted form item, in order,
with matching content — and none of the invoice's previously stored line
items remains in storage. -/
theorem C6_update_replaces_line_items (userId id : ℕ) (body : InvoiceForm)
    (now : ℕ) (st st' : MemStorage) (inv : Invoice) (items : List LineItem)
    (hfresh : linesFresh st)
    (hres : updateInvoiceHandler userId id body now st
      = (.okUpdate inv items, st')) :
    st'.getLineItemsByInvoiceId inv.id = items
    ∧ items.length = body.lineItems.length
    ∧ items.map (fun li => (li.description, li.quantity, li.rate, li.amount))
        = body.lineItems.map
            (fun f => (f.description, f.quantity, f.rate, f.amount))
    ∧ ∀ li ∈ st.lineItems, li.invoiceId = inv.id → li ∉ st'.lineItems := by
  simp only [updateInvoiceHandler] at hres
  split at hres
  · split at hres
    · simp at hres
    · split at hres
      · simp at hres
      · split at hres
        · simp at hres
        · split at hres
          · simp at hres
          · split at hres
            · simp at hres
            · next invoice hupd =>
                simp only [Prod.mk.injEq, InvResp.okUpdate.injEq] at hres
                obtain ⟨⟨hinv, hitems⟩, hst⟩ := hres
                subst hinv
                subst hitems
                subst hst
                exact update_success_replacement st id _ now invoice
                  body.lineItems hfresh
  · simp at hres

theorem C6_witness :
    demoUpdState.getLineItemsByInvoiceId demoUpdInvoice.id = [demoUpdItem] := by
  have hv : invoiceFormValid demoBody2 = true := by
    simp only [invoiceFormValid, lineItemFormValid, demoBody2, demoBody,
      List.all_cons, List.all_nil, List.length_cons, List.length_nil,
      Bool.and_true, Bool.and_eq_true, decide_eq_true_eq]
    norm_num
    decide
  have hsub : subtotalOf demoBody2.lineItems = 200 := by
    show (0 : ℚ) + 200 = 200
    norm_num
  have htax : subtotalOf demoBody2.lineItems * demoBody2.taxRate / 100 = 10 := by
    rw [hsub]
    show (200 : ℚ) * 5 / 100 = 10
    norm_num
  have htot : subtotalOf demoBody2.lineItems
      + subtotalOf demoBody2.lineItems * demoBody2.taxRate / 100 = 210 := by
    rw [htax, hsub]
    norm_num
  have hres : updateInvoiceHandler 1 1 demoBody2 7 demoState2
      = (.okUpdate demoUpdInvoice [demoUpdItem], demoUpdState) := by
    have e1 : demoUpdInvoice = { demoInvoice with
        subtotal := subtotalOf demoBody2.lineItems,
        taxAmount := subtotalOf demoBody2.lineItems * demoBody2.taxRate / 100,
        total := subtotalOf demoBody2.lineItems
          + subtotalOf demoBody2.lineItems * demoBody2.taxRate / 100,
        updatedAt := 7 } := by
      rw [htot, htax, hsub]
      rfl
    have e2 : demoUpdState = { demoState2 with
        invoices := [{ demoInvoice with
          subtotal := subtotalOf demoBody2.lineItems,
          taxAmount := subtotalOf demoBody2.lineItems * demoBody2.taxRate / 100,
          total := subtotalOf demoBody2.lineItems
            + subtotalOf demoBody2.lineItems * demoBody2.taxRate / 100,
          updatedAt := 7 }],
        lineItems := [demoUpdItem],
        currentLineItemId := 3 } := by
      rw [htot, htax, hsub]
      rfl
    rw [e1, e2]
    unfold updateInvoiceHandler
    rw [if_pos hv]
    rfl
  have hfresh : linesFresh demoState2 := by
    intro li hmem
    have h1 : li = demoLineItem := by simpa [demoState2] using hmem
    subst h1
    show (1 : ℕ) < 2
    omega
  exact (C6_update_replaces_line_items 1 1 demoBody2 7 demoState2 demoUpdState
    demoUpdInvoice [demoUpdItem] hfresh hres).1

/-! ## C1 — totals are computed and persisted without rounding -/

theorem foldl_add_amount (l : List LineItemForm) :
    ∀ a : ℚ, l.foldl (fun s it => s + it.amount) a
      = a + (l.map (fun it => it.amount)).sum := by
  induction l with
  | nil => intro a; simp
  | cons it rest ih =>
      intro a
      simp only [List.foldl_cons, List.map_cons, List.sum_cons, ih]
      ring

theorem subtotalOf_eq_sum (l : List LineItemForm) :
    subtotalOf l = (l.map (fun it => it.amount)).sum := by
  unfold subtotalOf
  rw [foldl_add_amount, zero_add]

/-- C1 counterexample: creating an invoice from `demoBody` (one line item
of amount `0.15`, tax rate `5`) persists `taxAmount = 0.0075` (`3/400`),
while the claimed half-up-rounded value `round(0.15 * 5 / 100, 2)` is
`0.01` (`1/100`): the handler applies no rounding and persists the
unrounded value. -/
theorem C1_counterexample :
    (createInvoiceHandler 1 demoBody 0 demoState).2.invoices.map
        (fun i => i.taxAmount) = [3/400]
    ∧ specTaxAmount demoBody.lineItems demoBody.taxRate = 1/100
    ∧ ((3 : ℚ)/400 ≠ 1/100) := by
  have hv : invoiceFormValid demoBody = true := by
    simp only [invoiceFormValid, lineItemFormValid, demoBody,
      List.all_cons, List.all_nil, List.length_cons, List.length_nil,
      Bool.and_true, Bool.and_eq_true, decide_eq_true_eq]
    norm_num
    decide
  refine ⟨?_, ?_, by norm_num⟩
  · unfold createInvoiceHandler
    rw [if_pos hv]
    show [subtotalOf demoBody.lineItems * demoBody.taxRate / 100]
      = [(3 : ℚ)/400]
    have hsub : subtotalOf demoBody.lineItems = 3/20 := by
      show (0 : ℚ) + 3/20 = 3/20
      norm_num
    rw [hsub]
    show [(3 : ℚ)/20 * 5 / 100] = [(3 : ℚ)/400]
    norm_num
  · have hsum : (demoBody.lineItems.map (fun it => it.amount)).sum
        = (3 : ℚ)/20 := by
      simp [demoBody]
    have h1 : specSubtotal demoBody.lineItems = 3/20 := by
      unfold specSubtotal specRound2
      rw [hsum]
      have hfl : ⌊(3 : ℚ)/20 * 100 + 1/2⌋ = 15 := by
        rw [Int.floor_eq_iff]
        norm_num
      rw [hfl]
      norm_num
    unfold specTaxAmount
    rw [h1]
    unfold specRound2
    have hfl2 : ⌊(3 : ℚ)/20 * demoBody.taxRate / 100 * 100 + 1/2⌋ = 1 := by
      show ⌊(3 : ℚ)/20 * 5 / 100 * 100 + 1/2⌋ = 1
      rw [Int.floor_eq_iff]
      norm_num
    rw [hfl2]
    norm_num

theorem updateInvoice_totals (st : MemStorage) (id : ℕ) (d : InvoiceUpdate)
    (now : ℕ) (invoice : Invoice)
    (h : (st.updateInvoice id d now).1 = some invoice) :
    invoice.subtotal = d.subtotal ∧ invoice.taxAmount = d.taxAmount
    ∧ invoice.total = d.total := by
  unfold MemStorage.updateInvoice at h
  split at h
  · simp at h
  · simp only [Option.some.injEq] at h
    subst h
    exact ⟨rfl, rfl, rfl⟩

/-- C1 (amended): the totals the handlers compute and persist on create
and update are exact and unrounded: `subtotal` is the plain sum of the
submitted line-item amounts, `taxAmount = subtotal * taxRate / 100` with
no rounding applied, and `total = subtotal + taxAmount`. -/
theorem C1_totals_unrounded (userId id : ℕ) (body : InvoiceForm) (now : ℕ)
    (st : MemStorage) :
    (∀ inv items, (createInvoiceHandler userId body now st).1
        = .createdR inv items →
      inv.subtotal = (body.lineItems.map (fun it => it.amount)).sum
      ∧ inv.taxAmount = inv.subtotal * body.taxRate / 100
      ∧ inv.total = inv.subtotal + inv.taxAmount)
    ∧ (∀ inv items, (updateInvoiceHandler userId id body now st).1
        = .okUpdate inv items →
      inv.subtotal = (body.lineItems.map (fun it => it.amount)).sum
      ∧ inv.taxAmount = inv.subtotal * body.taxRate / 100
      ∧ inv.total = inv.subtotal + inv.taxAmount) := by
  constructor
  · intro inv items h
    simp only [createInvoiceHandler] at h
    split at h
    · split at h
      · simp at h
      · split at h
        · simp at h
        · simp only [InvResp.createdR.injEq] at h
          obtain ⟨hinv, -⟩ := h
          subst hinv
          exact ⟨subtotalOf_eq_sum _, rfl, rfl⟩
    · simp at h
  · intro inv items h
    simp only [updateInvoiceHandler] at h
    split at h
    · split at h
      · simp at h
      · split at h
        · simp at h
        · split at h
          · simp at h
          · split at h
            · simp at h
            · split at h
              · simp at h
              · next invoice heq =>
                  simp only [InvResp.okUpdate.injEq] at h
                  obtain ⟨hinv, -⟩ := h
                  subst hinv
                  obtain ⟨h1, h2, h3⟩ := updateInvoice_totals _ _ _ _ _ heq
                  refine ⟨?_, ?_, ?_⟩
                  · rw [h1]
                    exact subtotalOf_eq_sum _
                  · rw [h2, h1]
                  · rw [h3, h1, h2]
    · simp at h

theorem C1_witness :
    demoInvoice.subtotal = (demoBody.lineItems.map (fun it => it.amount)).sum
    ∧ demoInvoice.taxAmount = demoInvoice.subtotal * demoBody.taxRate / 100
    ∧ demoInvoice.total = demoInvoice.subtotal + demoInvoice.taxAmount := by
  have hv : invoiceFormValid demoBody = true := by
    simp only [invoiceFormValid, lineItemFormValid, demoBody,
      List.all_cons, List.all_nil, List.length_cons, List.length_nil,
      Bool.and_true, Bool.and_eq_true, decide_eq_true_eq]
    norm_num
    decide
  have hsub : subtotalOf demoBody.lineItems = 3/20 := by
    show (0 : ℚ) + 3/20 = 3/20
    norm_num
  have htax : subtotalOf demoBody.lineItems * demoBody.taxRate / 100
      = 3/400 := by
    rw [hsub]
    show (3 : ℚ)/20 * 5 / 100 = 3/400
    norm_num
  have htot : subtotalOf demoBody.lineItems
      + subtotalOf demoBody.lineItems * demoBody.taxRate / 100 = 63/400 := by
    rw [htax, hsub]
    norm_num
  have hcreated : (createInvoiceHandler 1 demoBody 0 demoState).1
      = .createdR demoInvoice [demoLineItem] := by
    have e1 : demoInvoice = { demoInvoice with
        subtotal := subtotalOf demoBody.lineItems,
        taxAmount := subtotalOf demoBody.lineItems * demoBody.taxRate / 100,
        total := subtotalOf demoBody.lineItems
          + subtotalOf demoBody.lineItems * demoBody.taxRate / 100 } := by
      rw [htot, htax, hsub]
      rfl
    rw [e1]
    unfold createInvoiceHandler
    rw [if_pos hv]
    rfl
  exact (C1_totals_unrounded 1 0 demoBody 0 demoState).1 demoInvoice
    [demoLineItem] hcreated

end InvoiceApp
